import Mathlib

/-!
# Shallow embedding of the PDF-Renderer PostScript interpreter and PDF xref decoder

This file embeds the data model and operations of the C++ sources:

* `ps_types.h` / `ps_types.cpp`  — tagged `PSObject` values, shared-pointer handles
* `ps_stack.h` / part_004        — the operand stack (`PSStack`)
* `ps_operators.h` / part_003    — the operator registry and all operator bodies
* `ps_interpreter.cpp`           — `PSInterpreter::executeToken` and interpreter state
* `parser/ps_parser.cpp`         — `PSParser::tokenize`
* `pdf_parser.cpp`               — the xref-stream binary record decoder in
  `PDFParser::parseFile` and the big-endian field readers

Modelling conventions:

* `std::shared_ptr<PSObject>` handles are modelled by an explicit arena
  (`Arena := List PSVal`); a pointer is an index into the arena and
  `std::make_shared` is allocation at the end.  Copying a handle copies the
  index (identity preserved); copying a `PSObject` (as `PSStack::dup` does via
  `make_shared<PSObject>(*top)`) copies the cell's value into a fresh cell.
* C++ exceptions become `Except String`, carrying the source's message strings.
* C++ `int` is modelled by `Int` (two's-complement overflow, which is undefined
  behaviour in the source, is not modelled); C++ `double` is modelled by `Rat`
  (IEEE-754 rounding is not modelled; the verified claims concern type tags and
  exact small values only).  The `rotate` operator's `cos`/`sin` calls are kept
  abstract through an explicit `TrigModel` parameter.
* Console output (`std::cout` debugging and `show`/`stack` printing) has no
  effect on interpreter state and is not modelled.
* Dereferencing an invalid or dangling handle and calling
  `graphicsStack_.back()` on an empty vector are undefined behaviour in C++;
  both are modelled as errors, and all theorems assume valid states.
-/

deriving instance DecidableEq for Except

namespace PSI

/-- The `ObjectType` enumeration of `ps_types.h`. -/
inductive ObjectType where
  | integerT
  | realT
  | stringT
  | booleanT
  | arrayT
  | dictionaryT
  | procedureT
  | nullT
deriving DecidableEq, Repr

/-- A pointer (a `std::shared_ptr<PSObject>` handle): an index into the arena. -/
abbrev Ptr := Nat

/-- The contents of one `PSObject`: the `type_` tag together with the
`PrimitiveValue` variant.  Arrays hold handles to their elements
(`PSArray = std::vector<PSObjectPtr>`), dictionaries map string keys to
handles (`PSDictionary = std::unordered_map<std::string, PSObjectPtr>`,
modelled as an insertion-ordered association list), and procedures hold the
raw source-token list (`PSProcedure = std::vector<std::string>`). -/
inductive PSVal where
  | integer (i : Int)
  | real (r : Rat)
  | string (s : String)
  | boolean (b : Bool)
  | array (elems : List Ptr)
  | dict (entries : List (String × Ptr))
  | procedure (tokens : List String)
  | null
deriving DecidableEq, Repr

/-- The `getType()` accessor. -/
def PSVal.typeOf : PSVal → ObjectType
  | .integer _ => .integerT
  | .real _ => .realT
  | .string _ => .stringT
  | .boolean _ => .booleanT
  | .array _ => .arrayT
  | .dict _ => .dictionaryT
  | .procedure _ => .procedureT
  | .null => .nullT

/-- The process heap of `PSObject` cells; `make_shared` appends a cell. -/
abbrev Arena := List PSVal

/-- `std::make_shared<PSObject>(v)`: allocate a fresh cell, return the handle. -/
def alloc (a : Arena) (v : PSVal) : Arena × Ptr := (a ++ [v], a.length)

/-- Dereference a handle. `none` models a dangling pointer (UB in C++). -/
def valAt (a : Arena) (p : Ptr) : Option PSVal := a.get? p

/-- Overwrite the cell a handle points to (in-place mutation of a `PSObject`). -/
def setAt (a : Arena) (p : Ptr) (v : PSVal) : Arena := a.set p v

/-- `std::unordered_map` insertion / assignment (`dict[key] = value`):
replace the binding if the key is present, otherwise append it. -/
def dictInsert (d : List (String × Ptr)) (k : String) (p : Ptr) :
    List (String × Ptr) :=
  match d with
  | [] => [(k, p)]
  | (k0, p0) :: rest =>
      if k0 = k then (k, p) :: rest else (k0, p0) :: dictInsert rest k p

/-- `std::unordered_map::find`. -/
def dictFind (d : List (String × Ptr)) (k : String) : Option Ptr :=
  match d with
  | [] => none
  | (k0, p0) :: rest => if k0 = k then some p0 else dictFind rest k

/-- The `Point` struct. -/
structure Point where
  x : Rat
  y : Rat
deriving DecidableEq, Repr

/-- `PathSegment::Type`. -/
inductive SegType where
  | moveTo
  | lineTo
  | curveTo
  | closePath
deriving DecidableEq, Repr

/-- The `PathSegment` struct: a segment type plus its point list. -/
structure PathSegment where
  type : SegType
  points : List Point
deriving DecidableEq, Repr

/-- The 2×3 CTM `std::array<double, 6>` `(a, b, c, d, e, f)`. -/
structure Matrix6 where
  a : Rat
  b : Rat
  c : Rat
  d : Rat
  e : Rat
  f : Rat
deriving DecidableEq, Repr

/-- The `GraphicsState` struct. -/
structure GraphicsState where
  currentPoint : Point
  currentPath : List PathSegment
  ctm : Matrix6
  lineWidth : Rat
  r : Rat
  g : Rat
  b : Rat
deriving DecidableEq, Repr

/-- The `GraphicsState()` default constructor:
current point (0,0), empty path, identity CTM, line width 1, black. -/
def initGraphicsState : GraphicsState :=
  { currentPoint := ⟨0, 0⟩
    currentPath := []
    ctm := ⟨1, 0, 0, 1, 0, 0⟩
    lineWidth := 1
    r := 0, g := 0, b := 0 }

/-- The full interpreter state: the process arena together with
`PSInterpreter`'s operand stack (`stack_`), dictionary stack
(`dictionaryStack_`) and graphics stack (`graphicsStack_`).  Lean list heads
model the C++ vectors' `back()` ends (the tops). -/
structure PSState where
  arena : Arena
  opStack : List Ptr
  dictStack : List Ptr
  graphicsStack : List GraphicsState
deriving DecidableEq, Repr

/-- `PSStack::pop`. -/
def stackPop (s : List Ptr) : Except String (Ptr × List Ptr) :=
  match s with
  | [] => .error "Stack underflow: cannot pop from empty stack"
  | t :: r => .ok (t, r)

/-- `PSStack::exch`. -/
def stackExch (s : List Ptr) : Except String (List Ptr) :=
  match s with
  | t1 :: t2 :: r => .ok (t2 :: t1 :: r)
  | _ => .error "Stack underflow: need at least 2 elements for exch"

/-- Pop the operand stack, returning the handle and the new state. -/
def popv (st : PSState) : Except String (Ptr × PSState) := do
  let (p, s) ← stackPop st.opStack
  .ok (p, { st with opStack := s })

/-- Dereference a handle in a state (error models UB on a dangling pointer). -/
def readVal (st : PSState) (p : Ptr) : Except String PSVal :=
  match valAt st.arena p with
  | some v => .ok v
  | none => .error "invalid object handle"

/-- Allocate a fresh cell for `v` and push its handle (the ubiquitous
`stack.push(std::make_shared<PSObject>(...))` pattern). -/
def pushNew (st : PSState) (v : PSVal) : PSState :=
  { st with arena := st.arena ++ [v], opStack := st.arena.length :: st.opStack }

/-- Push an existing handle (sharing identity). -/
def pushPtr (st : PSState) (p : Ptr) : PSState :=
  { st with opStack := p :: st.opStack }

/-- `PSStack::dup`: `make_shared<PSObject>(*top)` — a fresh cell holding a
copy of the top cell's value (element handles inside composites are shared,
the cell itself is not). -/
def opDup (st : PSState) : Except String PSState :=
  match st.opStack with
  | [] => .error "Stack underflow: cannot dup empty stack"
  | t :: r =>
      match valAt st.arena t with
      | none => .error "invalid object handle"
      | some v =>
          .ok { st with arena := st.arena ++ [v],
                        opStack := st.arena.length :: t :: r }

/-- The `pop` operator: discard the top operand. -/
def opPop (st : PSState) : Except String PSState := do
  let (_, st) ← popv st
  .ok st

/-- The `exch` operator. -/
def opExch (st : PSState) : Except String PSState := do
  let s ← stackExch st.opStack
  .ok { st with opStack := s }

/-- The `clear` operator. -/
def opClear (st : PSState) : Except String PSState :=
  .ok { st with opStack := [] }

/-- The `stack` operator: prints a debug dump; no state change. -/
def opStackPrint (st : PSState) : Except String PSState := .ok st

/-- The `show` operator: pops one value and prints it (output not modelled). -/
def opShow (st : PSState) : Except String PSState := do
  if st.opStack.isEmpty then
    .error "Stack underflow: need 1 operand for show"
  else
    let (_, st) ← popv st
    .ok st

/-- The `(x INT) ? x->asInteger() : x->asReal()` coercion pattern.
A value of any other tag reaches `asReal()`, which throws. -/
def coerceReal (v : PSVal) : Except String Rat :=
  match v with
  | .integer i => .ok (i : Rat)
  | .real r => .ok r
  | _ => .error "Object is not a real number"

/-- The `add` operator (`Operators::add`). -/
def opAdd (st : PSState) : Except String PSState := do
  if st.opStack.length < 2 then
    .error "Stack underflow: need 2 operands for add"
  else
    let (pb, st) ← popv st
    let (pa, st) ← popv st
    let b ← readVal st pb
    let a ← readVal st pa
    match a, b with
    | .integer i, .integer j => .ok (pushNew st (.integer (i + j)))
    | _, _ =>
        if a.typeOf = .realT ∨ b.typeOf = .realT then do
          let av ← coerceReal a
          let bv ← coerceReal b
          .ok (pushNew st (.real (av + bv)))
        else
          .error "Invalid operands for add operation"

/-- The `sub` operator. -/
def opSub (st : PSState) : Except String PSState := do
  if st.opStack.length < 2 then
    .error "Stack underflow: need 2 operands for sub"
  else
    let (pb, st) ← popv st
    let (pa, st) ← popv st
    let b ← readVal st pb
    let a ← readVal st pa
    match a, b with
    | .integer i, .integer j => .ok (pushNew st (.integer (i - j)))
    | _, _ =>
        if a.typeOf = .realT ∨ b.typeOf = .realT then do
          let av ← coerceReal a
          let bv ← coerceReal b
          .ok (pushNew st (.real (av - bv)))
        else
          .error "Invalid operands for sub operation"

/-- The `mul` operator. -/
def opMul (st : PSState) : Except String PSState := do
  if st.opStack.length < 2 then
    .error "Stack underflow: need 2 operands for mul"
  else
    let (pb, st) ← popv st
    let (pa, st) ← popv st
    let b ← readVal st pb
    let a ← readVal st pa
    match a, b with
    | .integer i, .integer j => .ok (pushNew st (.integer (i * j)))
    | _, _ =>
        if a.typeOf = .realT ∨ b.typeOf = .realT then do
          let av ← coerceReal a
          let bv ← coerceReal b
          .ok (pushNew st (.real (av * bv)))
        else
          .error "Invalid operands for mul operation"

/-- The `div` operator: division-by-zero check, then truncating integer
division (C++ `/` on `int` truncates toward zero, `Int.tdiv`) for two
Integers, real division otherwise. -/
def opDiv (st : PSState) : Except String PSState := do
  if st.opStack.length < 2 then
    .error "Stack underflow: need 2 operands for div"
  else
    let (pb, st) ← popv st
    let (pa, st) ← popv st
    let b ← readVal st pb
    let a ← readVal st pa
    if b = .integer 0 ∨ b = .real 0 then
      .error "Division by zero"
    else
      match a, b with
      | .integer i, .integer j => .ok (pushNew st (.integer (Int.tdiv i j)))
      | _, _ => do
          let av ← coerceReal a
          let bv ← coerceReal b
          .ok (pushNew st (.real (av / bv)))

/-- The comparison switch of `eq` (the `result` local of the source):
`false` unless both tags match and the tag is a scalar comparable
(Integer, Real, String, Boolean); composite tags fall to the switch's
`default` and compare as `false` even against themselves. -/
def eqSwitch (a b : PSVal) : Bool :=
  if a.typeOf = b.typeOf then
    match a, b with
    | .integer i, .integer j => i == j
    | .real x, .real y => x == y
    | .string s, .string t => s == t
    | .boolean p, .boolean q => p == q
    | _, _ => false
  else false

/-- The `eq` operator. -/
def opEq (st : PSState) : Except String PSState := do
  if st.opStack.length < 2 then
    .error "Stack underflow: need 2 operands for eq"
  else
    let (pb, st) ← popv st
    let (pa, st) ← popv st
    let b ← readVal st pb
    let a ← readVal st pa
    .ok (pushNew st (.boolean (eqSwitch a b)))

/-- The `ne` operator: runs `eq`, pops its result, pushes the negation. -/
def opNe (st : PSState) : Except String PSState := do
  let st ← opEq st
  let (pr, st) ← popv st
  let r ← readVal st pr
  match r with
  | .boolean bb => .ok (pushNew st (.boolean (!bb)))
  | _ => .error "Object is not a boolean"

/-- The `lt` operator. -/
def opLt (st : PSState) : Except String PSState := do
  if st.opStack.length < 2 then
    .error "Stack underflow: need 2 operands for lt"
  else
    let (pb, st) ← popv st
    let (pa, st) ← popv st
    let b ← readVal st pb
    let a ← readVal st pa
    match a, b with
    | .integer i, .integer j => .ok (pushNew st (.boolean (i < j)))
    | _, _ =>
        if a.typeOf = .realT ∨ b.typeOf = .realT then do
          let av ← coerceReal a
          let bv ← coerceReal b
          .ok (pushNew st (.boolean (av < bv)))
        else
          .error "Invalid operands for lt operation"

/-- The `le` operator. -/
def opLe (st : PSState) : Except String PSState := do
  if st.opStack.length < 2 then
    .error "Stack underflow: need 2 operands for le"
  else
    let (pb, st) ← popv st
    let (pa, st) ← popv st
    let b ← readVal st pb
    let a ← readVal st pa
    match a, b with
    | .integer i, .integer j => .ok (pushNew st (.boolean (i ≤ j)))
    | _, _ =>
        if a.typeOf = .realT ∨ b.typeOf = .realT then do
          let av ← coerceReal a
          let bv ← coerceReal b
          .ok (pushNew st (.boolean (av ≤ bv)))
        else
          .error "Invalid operands for le operation"

/-- The `gt` operator. -/
def opGt (st : PSState) : Except String PSState := do
  if st.opStack.length < 2 then
    .error "Stack underflow: need 2 operands for gt"
  else
    let (pb, st) ← popv st
    let (pa, st) ← popv st
    let b ← readVal st pb
    let a ← readVal st pa
    match a, b with
    | .integer i, .integer j => .ok (pushNew st (.boolean (j < i)))
    | _, _ =>
        if a.typeOf = .realT ∨ b.typeOf = .realT then do
          let av ← coerceReal a
          let bv ← coerceReal b
          .ok (pushNew st (.boolean (bv < av)))
        else
          .error "Invalid operands for gt operation"

/-- The `ge` operator. -/
def opGe (st : PSState) : Except String PSState := do
  if st.opStack.length < 2 then
    .error "Stack underflow: need 2 operands for ge"
  else
    let (pb, st) ← popv st
    let (pa, st) ← popv st
    let b ← readVal st pb
    let a ← readVal st pa
    match a, b with
    | .integer i, .integer j => .ok (pushNew st (.boolean (j ≤ i)))
    | _, _ =>
        if a.typeOf = .realT ∨ b.typeOf = .realT then do
          let av ← coerceReal a
          let bv ← coerceReal b
          .ok (pushNew st (.boolean (bv ≤ av)))
        else
          .error "Invalid operands for ge operation"

/-- The element-allocation loop of the `array` operator: `size` fresh
null cells, allocated in index order. -/
def allocNulls (a : Arena) : Nat → Arena × List Ptr
  | 0 => (a, [])
  | n + 1 =>
      let (a1, p) := alloc a .null
      let (a2, ps) := allocNulls a1 n
      (a2, p :: ps)

/-- The `array` operator. -/
def opArray (st : PSState) : Except String PSState := do
  if st.opStack.isEmpty then
    .error "Stack underflow: need size for array"
  else
    let (ps, st) ← popv st
    let v ← readVal st ps
    match v with
    | .integer n =>
        if n < 0 then .error "Array size cannot be negative"
        else
          let (a2, elems) := allocNulls st.arena n.toNat
          .ok (pushNew { st with arena := a2 } (.array elems))
    | _ => .error "Array size must be an integer"

/-- The `get` operator: pushes the element handle itself (shared). -/
def opGet (st : PSState) : Except String PSState := do
  if st.opStack.length < 2 then
    .error "Stack underflow: need array and index for get"
  else
    let (pi, st) ← popv st
    let (pa, st) ← popv st
    let av ← readVal st pa
    let iv ← readVal st pi
    match av with
    | .array elems =>
        match iv with
        | .integer i =>
            if i < 0 ∨ elems.length ≤ i.toNat then
              .error "Array index out of bounds"
            else
              match elems.get? i.toNat with
              | some pe => .ok (pushPtr st pe)
              | none => .error "Array index out of bounds"
        | _ => .error "Index must be an integer"
    | _ => .error "First operand must be an array"

/-- The `put` operator: writes the element handle in place through the
array handle, then pushes the array handle back (the source's deviation
from standard PostScript). -/
def opPut (st : PSState) : Except String PSState := do
  if st.opStack.length < 3 then
    .error "Stack underflow: need array, index, and value for put"
  else
    let (pv, st) ← popv st
    let (pi, st) ← popv st
    let (pa, st) ← popv st
    let av ← readVal st pa
    let iv ← readVal st pi
    match av with
    | .array elems =>
        match iv with
        | .integer i =>
            if i < 0 ∨ elems.length ≤ i.toNat then
              .error "Array index out of bounds"
            else
              .ok (pushPtr
                    { st with arena := setAt st.arena pa (.array (elems.set i.toNat pv)) }
                    pa)
        | _ => .error "Index must be an integer"
    | _ => .error "First operand must be an array"

/-- The `length` operator: array length, or string length with one
enclosing `(` `)` pair stripped. -/
def opLength (st : PSState) : Except String PSState := do
  if st.opStack.isEmpty then
    .error "Stack underflow: need operand for length"
  else
    let (p, st) ← popv st
    let v ← readVal st p
    match v with
    | .array elems => .ok (pushNew st (.integer elems.length))
    | .string s =>
        let s2 := if s.length ≥ 2 && s.front == '(' && s.back == ')'
                  then (s.drop 1).dropRight 1 else s
        .ok (pushNew st (.integer s2.length))
    | _ => .error "Length operation not supported for this type"

/-- The `aload` operator: push every element handle in order, then the
array handle itself. -/
def opAload (st : PSState) : Except String PSState := do
  if st.opStack.isEmpty then
    .error "Stack underflow: need array for aload"
  else
    let (pa, st) ← popv st
    let v ← readVal st pa
    match v with
    | .array elems =>
        .ok (pushPtr (elems.foldl (fun s e => pushPtr s e) st) pa)
    | _ => .error "Operand must be an array"

/-- The pop-and-store loop of `astore`: for `i = arraySize` down to `1`,
pop an element handle and `arraySet(i - 1, element)`. -/
def astoreLoop : Nat → PSState → Ptr → Except String PSState
  | 0, st, _ => .ok st
  | i + 1, st, ap => do
      let (pe, st) ← popv st
      let v ← readVal st ap
      match v with
      | .array elems =>
          if elems.length ≤ i then .error "Array index out of bounds"
          else
            astoreLoop i
              { st with arena := setAt st.arena ap (.array (elems.set i pe)) } ap
      | _ => .error "Object is not an array"

/-- The `astore` operator: pops the array (from the top), requires the
stack to still hold at least `arrayLength` values, pops them into the
array from index `arrayLength − 1` down to `0`, then pushes the array. -/
def opAstore (st : PSState) : Except String PSState := do
  if st.opStack.isEmpty then
    .error "Stack underflow: need array for astore"
  else
    let (pa, st) ← popv st
    let v ← readVal st pa
    match v with
    | .array elems =>
        if st.opStack.length < elems.length then
          .error "Stack underflow: not enough elements for astore"
        else do
          let st ← astoreLoop elems.length st pa
          .ok (pushPtr st pa)
    | _ => .error "Operand must be an array"

/-- `token[0] == '/' → substr(1)` key normalization shared by the
dictionary operators. -/
def stripSlash (key : String) : String :=
  if key.length > 0 && key.front == '/' then key.drop 1 else key

/-- The `dict` operator (the size hint is checked, then ignored). -/
def opDict (st : PSState) : Except String PSState := do
  if st.opStack.isEmpty then
    .error "Stack underflow: need size for dict"
  else
    let (ps, st) ← popv st
    let v ← readVal st ps
    match v with
    | .integer n =>
        if n < 0 then .error "Dictionary size cannot be negative"
        else .ok (pushNew st (.dict []))
    | _ => .error "Dictionary size must be an integer"

/-- The `def` operator: pops value then key (a String cell, as pushed for
`/name` tokens), strips the leading `/`, and writes into the current
(top) dictionary in place. -/
def opDef (st : PSState) : Except String PSState := do
  if st.opStack.length < 2 then
    .error "Stack underflow: need key and value for def"
  else
    let (pv, st) ← popv st
    let (pk, st) ← popv st
    let kv ← readVal st pk
    match kv with
    | .string key =>
        let key := stripSlash key
        match st.dictStack.head? with
        | none => .error "No current dictionary available"
        | some dp =>
            match valAt st.arena dp with
            | some (.dict entries) =>
                .ok { st with arena := setAt st.arena dp (.dict (dictInsert entries key pv)) }
            | _ => .error "No current dictionary available"
    | _ => .error "Key must be a string"

/-- The `load` operator: looks the key up in the current dictionary only. -/
def opLoad (st : PSState) : Except String PSState := do
  if st.opStack.isEmpty then
    .error "Stack underflow: need key for load"
  else
    let (pk, st) ← popv st
    let kv ← readVal st pk
    match kv with
    | .string key =>
        let key := stripSlash key
        match st.dictStack.head? with
        | none => .error "No current dictionary available"
        | some dp =>
            match valAt st.arena dp with
            | some (.dict entries) =>
                match dictFind entries key with
                | some pv => .ok (pushPtr st pv)
                | none => .error ("Key not found in dictionary: " ++ key)
            | _ => .error "No current dictionary available"
    | _ => .error "Key must be a string"

/-- The `store` operator: writes directly into the popped dictionary. -/
def opStore (st : PSState) : Except String PSState := do
  if st.opStack.length < 3 then
    .error "Stack underflow: need dictionary, key, and value for store"
  else
    let (pv, st) ← popv st
    let (pk, st) ← popv st
    let (pd, st) ← popv st
    let dv ← readVal st pd
    let kv ← readVal st pk
    match dv with
    | .dict entries =>
        match kv with
        | .string key =>
            let key := stripSlash key
            .ok { st with arena := setAt st.arena pd (.dict (dictInsert entries key pv)) }
        | _ => .error "Key must be a string"
    | _ => .error "First operand must be a dictionary"

/-- The `known` operator. -/
def opKnown (st : PSState) : Except String PSState := do
  if st.opStack.length < 2 then
    .error "Stack underflow: need dictionary and key for known"
  else
    let (pk, st) ← popv st
    let (pd, st) ← popv st
    let dv ← readVal st pd
    let kv ← readVal st pk
    match dv with
    | .dict entries =>
        match kv with
        | .string key =>
            let key := stripSlash key
            .ok (pushNew st (.boolean (dictFind entries key).isSome))
        | _ => .error "Key must be a string"
    | _ => .error "First operand must be a dictionary"

/-- Allocation loop of `keys`: one fresh String cell `\"/\" ++ key` per key. -/
def allocKeyObjs (a : Arena) : List String → Arena × List Ptr
  | [] => (a, [])
  | k :: rest =>
      let (a1, p) := alloc a (.string ("/" ++ k))
      let (a2, ps) := allocKeyObjs a1 rest
      (a2, p :: ps)

/-- The `keys` operator: pops a dictionary and pushes an Array of its key
names (iteration order of the model's association list stands in for the
unordered_map's unspecified order). -/
def opKeys (st : PSState) : Except String PSState := do
  if st.opStack.isEmpty then
    .error "Stack underflow: need dictionary for keys"
  else
    let (pd, st) ← popv st
    let dv ← readVal st pd
    match dv with
    | .dict entries =>
        let (a2, ps) := allocKeyObjs st.arena (entries.map (·.1))
        .ok (pushNew { st with arena := a2 } (.array ps))
    | _ => .error "Operand must be a dictionary"

/-- Replay a token list through the executor (`for (token : proc)
interpreter.executeToken(token)`); `run` is the interpreter's
`executeToken`, passed in because operators receive the interpreter. -/
def runTokens (run : PSState → String → Except String PSState)
    (st : PSState) (toks : List String) : Except String PSState :=
  match toks with
  | [] => .ok st
  | t :: r => do
      let st ← run st t
      runTokens run st r

/-- The `exec` operator. -/
def opExec (run : PSState → String → Except String PSState)
    (st : PSState) : Except String PSState := do
  if st.opStack.isEmpty then
    .error "Stack underflow: need procedure for exec"
  else
    let (pp, st) ← popv st
    let pv ← readVal st pp
    match pv with
    | .procedure toks => runTokens run st toks
    | _ => .error "Operand must be a procedure"

/-- The per-element loop of `forall`: push the element handle, replay the
procedure. -/
def forallLoop (run : PSState → String → Except String PSState)
    (toks : List String) : List Ptr → PSState → Except String PSState
  | [], st => .ok st
  | e :: rest, st => do
      let st ← runTokens run (pushPtr st e) toks
      forallLoop run toks rest st

/-- The `forall` operator: the element list is snapshotted (`asArray()`
returns a copy of the handle vector) before iteration. -/
def opForall (run : PSState → String → Except String PSState)
    (st : PSState) : Except String PSState := do
  if st.opStack.length < 2 then
    .error "Stack underflow: need array and procedure for forall"
  else
    let (pp, st) ← popv st
    let (pa, st) ← popv st
    let av ← readVal st pa
    let pv ← readVal st pp
    match av with
    | .array elems =>
        match pv with
        | .procedure toks => forallLoop run toks elems st
        | _ => .error "Second operand must be a procedure"
    | _ => .error "First operand must be an array"

/-- The `if` operator (`Operators::if_`): condition defaults to `false`,
then Boolean / Integer ≠ 0 / Real ≠ 0.0 override it; a condition of any
other tag leaves it `false`. -/
def opIf (run : PSState → String → Except String PSState)
    (st : PSState) : Except String PSState := do
  if st.opStack.length < 2 then
    .error "Stack underflow: need condition and procedure for if"
  else
    let (pp, st) ← popv st
    let (pc, st) ← popv st
    let pv ← readVal st pp
    let cv ← readVal st pc
    match pv with
    | .procedure toks =>
        let condition : Bool :=
          match cv with
          | .boolean bb => bb
          | .integer i => i != 0
          | .real r => r != 0
          | _ => false
        if condition then runTokens run st toks else .ok st
    | _ => .error "Second operand must be a procedure"

/-- The `ifelse` operator. -/
def opIfelse (run : PSState → String → Except String PSState)
    (st : PSState) : Except String PSState := do
  if st.opStack.length < 3 then
    .error "Stack underflow: need condition and two procedures for ifelse"
  else
    let (pe, st) ← popv st
    let (pt, st) ← popv st
    let (pc, st) ← popv st
    let tv ← readVal st pt
    let ev ← readVal st pe
    let cv ← readVal st pc
    match tv with
    | .procedure thenToks =>
        match ev with
        | .procedure elseToks =>
            let condition : Bool :=
              match cv with
              | .boolean bb => bb
              | .integer i => i != 0
              | .real r => r != 0
              | _ => false
            runTokens run st (if condition then thenToks else elseToks)
        | _ => .error "Third operand must be a procedure"
    | _ => .error "Second operand must be a procedure"

/-- The iteration loop of `repeat`. -/
def repeatLoop (run : PSState → String → Except String PSState)
    (toks : List String) : Nat → PSState → Except String PSState
  | 0, st => .ok st
  | n + 1, st => do
      let st ← runTokens run st toks
      repeatLoop run toks n st

/-- The `repeat` operator. -/
def opRepeat (run : PSState → String → Except String PSState)
    (st : PSState) : Except String PSState := do
  if st.opStack.length < 2 then
    .error "Stack underflow: need count and procedure for repeat"
  else
    let (pp, st) ← popv st
    let (pc, st) ← popv st
    let pv ← readVal st pp
    let cv ← readVal st pc
    match pv with
    | .procedure toks =>
        match cv with
        | .integer n =>
            if n < 0 then .error "Repeat count cannot be negative"
            else repeatLoop run toks n.toNat st
        | _ => .error "Count must be an integer"
    | _ => .error "Second operand must be a procedure"

/-- The index sequence of the `for` loop: `i = start; i ≤ end; i += inc`
for positive `inc`, `i = start; i ≥ end; i += inc` for negative `inc`
(C++ `int` arithmetic without overflow). -/
def forIndices (start endv inc : Int) : List Int :=
  if 0 < inc then
    if endv < start then []
    else (List.range ((endv - start).toNat / inc.toNat + 1)).map
          (fun k => start + k * inc)
  else
    if start < endv then []
    else (List.range ((start - endv).toNat / (-inc).toNat + 1)).map
          (fun k => start + k * inc)

/-- The iteration loop of `for`: push the counter as an Integer, replay. -/
def forIter (run : PSState → String → Except String PSState)
    (toks : List String) : List Int → PSState → Except String PSState
  | [], st => .ok st
  | i :: rest, st => do
      let st ← runTokens run (pushNew st (.integer i)) toks
      forIter run toks rest st

/-- The `for` operator (`Operators::for_`). -/
def opFor (run : PSState → String → Except String PSState)
    (st : PSState) : Except String PSState := do
  if st.opStack.length < 4 then
    .error "Stack underflow: need start, end, increment, and procedure for for"
  else
    let (pp, st) ← popv st
    let (pinc, st) ← popv st
    let (pend, st) ← popv st
    let (pstart, st) ← popv st
    let pv ← readVal st pp
    let sv ← readVal st pstart
    let ev ← readVal st pend
    let iv ← readVal st pinc
    match pv with
    | .procedure toks =>
        match sv, ev, iv with
        | .integer start, .integer endv, .integer inc =>
            if inc = 0 then .error "Increment cannot be zero"
            else forIter run toks (forIndices start endv inc) st
        | _, _, _ => .error "Start, end, and increment must be integers"
    | _ => .error "Fourth operand must be a procedure"

/-- Update the current graphics state (`graphicsStack_.back()`); the empty
case models the UB of `back()` on an empty vector. -/
def withGS (st : PSState) (f : GraphicsState → GraphicsState) :
    Except String PSState :=
  match st.graphicsStack with
  | [] => .error "graphics state stack is empty"
  | g :: rest => .ok { st with graphicsStack := f g :: rest }

/-- The `moveto` operator. -/
def opMoveto (st : PSState) : Except String PSState := do
  if st.opStack.length < 2 then
    .error "Stack underflow: need x and y for moveto"
  else
    let (py, st) ← popv st
    let (px, st) ← popv st
    let xv ← readVal st px
    let yv ← readVal st py
    if xv.typeOf ≠ .realT ∧ xv.typeOf ≠ .integerT then
      .error "X coordinate must be a number"
    else if yv.typeOf ≠ .realT ∧ yv.typeOf ≠ .integerT then
      .error "Y coordinate must be a number"
    else do
      let x ← coerceReal xv
      let y ← coerceReal yv
      withGS st fun gs =>
        { gs with currentPoint := ⟨x, y⟩
                  currentPath := gs.currentPath ++ [⟨.moveTo, [⟨x, y⟩]⟩] }

/-- The `lineto` operator. -/
def opLineto (st : PSState) : Except String PSState := do
  if st.opStack.length < 2 then
    .error "Stack underflow: need x and y for lineto"
  else
    let (py, st) ← popv st
    let (px, st) ← popv st
    let xv ← readVal st px
    let yv ← readVal st py
    if xv.typeOf ≠ .realT ∧ xv.typeOf ≠ .integerT then
      .error "X coordinate must be a number"
    else if yv.typeOf ≠ .realT ∧ yv.typeOf ≠ .integerT then
      .error "Y coordinate must be a number"
    else do
      let x ← coerceReal xv
      let y ← coerceReal yv
      withGS st fun gs =>
        { gs with currentPoint := ⟨x, y⟩
                  currentPath := gs.currentPath ++ [⟨.lineTo, [⟨x, y⟩]⟩] }

/-- The `closepath` operator. -/
def opClosepath (st : PSState) : Except String PSState :=
  withGS st fun gs =>
    { gs with currentPath := gs.currentPath ++ [⟨.closePath, []⟩] }

/-- The `stroke` operator: emits the stroke event (printing, not modelled)
and clears the current path. -/
def opStroke (st : PSState) : Except String PSState :=
  withGS st fun gs => { gs with currentPath := [] }

/-- The `fill` operator: emits the fill event and clears the current path. -/
def opFill (st : PSState) : Except String PSState :=
  withGS st fun gs => { gs with currentPath := [] }

/-- The `newpath` operator. -/
def opNewpath (st : PSState) : Except String PSState :=
  withGS st fun gs => { gs with currentPath := [] }

/-- The `gsave` operator: `graphicsStack_.push_back(getCurrentGraphicsState())`
— a value copy of the whole struct, so a deep copy including the path. -/
def opGsave (st : PSState) : Except String PSState :=
  match st.graphicsStack with
  | [] => .error "graphics state stack is empty"
  | g :: rest => .ok { st with graphicsStack := g :: g :: rest }

/-- The `grestore` operator: refuses to drop the last state. -/
def opGrestore (st : PSState) : Except String PSState :=
  if st.graphicsStack.length ≤ 1 then
    .error "Graphics state stack underflow"
  else
    .ok { st with graphicsStack := st.graphicsStack.tail }

/-- The `translate` operator: `e' = a·tx + c·ty + e`, `f' = b·tx + d·ty + f`. -/
def opTranslate (st : PSState) : Except String PSState := do
  if st.opStack.length < 2 then
    .error "Stack underflow: need tx and ty for translate"
  else
    let (pty, st) ← popv st
    let (ptx, st) ← popv st
    let txv ← readVal st ptx
    let tyv ← readVal st pty
    if txv.typeOf ≠ .realT ∧ txv.typeOf ≠ .integerT then
      .error "TX must be a number"
    else if tyv.typeOf ≠ .realT ∧ tyv.typeOf ≠ .integerT then
      .error "TY must be a number"
    else do
      let tx ← coerceReal txv
      let ty ← coerceReal tyv
      withGS st fun gs =>
        { gs with ctm := { gs.ctm with
            e := gs.ctm.a * tx + gs.ctm.c * ty + gs.ctm.e
            f := gs.ctm.b * tx + gs.ctm.d * ty + gs.ctm.f } }

/-- The `scale` operator. -/
def opScale (st : PSState) : Except String PSState := do
  if st.opStack.length < 2 then
    .error "Stack underflow: need sx and sy for scale"
  else
    let (psy, st) ← popv st
    let (psx, st) ← popv st
    let sxv ← readVal st psx
    let syv ← readVal st psy
    if sxv.typeOf ≠ .realT ∧ sxv.typeOf ≠ .integerT then
      .error "SX must be a number"
    else if syv.typeOf ≠ .realT ∧ syv.typeOf ≠ .integerT then
      .error "SY must be a number"
    else do
      let sx ← coerceReal sxv
      let sy ← coerceReal syv
      withGS st fun gs =>
        { gs with ctm := { gs.ctm with
            a := sx * gs.ctm.a, b := sx * gs.ctm.b
            c := sy * gs.ctm.c, d := sy * gs.ctm.d } }

/-- Abstract model of the C library `cos`/`sin` on a degree argument
(the source computes `cos(angle · π / 180.0)` in doubles; no claim under
verification depends on the numeric values, so they stay parametric). -/
structure TrigModel where
  cosDeg : Rat → Rat
  sinDeg : Rat → Rat

/-- The `rotate` operator. -/
def opRotate (tm : TrigModel) (st : PSState) : Except String PSState := do
  if st.opStack.isEmpty then
    .error "Stack underflow: need angle for rotate"
  else
    let (pang, st) ← popv st
    let av ← readVal st pang
    if av.typeOf ≠ .realT ∧ av.typeOf ≠ .integerT then
      .error "Angle must be a number"
    else do
      let angle ← coerceReal av
      let cosv := tm.cosDeg angle
      let sinv := tm.sinDeg angle
      withGS st fun gs =>
        { gs with ctm := { gs.ctm with
            a := cosv * gs.ctm.a - sinv * gs.ctm.c
            b := cosv * gs.ctm.b - sinv * gs.ctm.d
            c := sinv * gs.ctm.a + cosv * gs.ctm.c
            d := sinv * gs.ctm.b + cosv * gs.ctm.d } }

/-- The `setrgbcolor` operator. -/
def opSetrgbcolor (st : PSState) : Except String PSState := do
  if st.opStack.length < 3 then
    .error "Stack underflow: need r, g, b for setrgbcolor"
  else
    let (pb, st) ← popv st
    let (pg, st) ← popv st
    let (pr, st) ← popv st
    let rv ← readVal st pr
    let gv ← readVal st pg
    let bv ← readVal st pb
    if rv.typeOf ≠ .realT ∧ rv.typeOf ≠ .integerT then
      .error "R must be a number"
    else if gv.typeOf ≠ .realT ∧ gv.typeOf ≠ .integerT then
      .error "G must be a number"
    else if bv.typeOf ≠ .realT ∧ bv.typeOf ≠ .integerT then
      .error "B must be a number"
    else do
      let rq ← coerceReal rv
      let gq ← coerceReal gv
      let bq ← coerceReal bv
      withGS st fun gs => { gs with r := rq, g := gq, b := bq }

/-- The `setlinewidth` operator. -/
def opSetlinewidth (st : PSState) : Except String PSState := do
  if st.opStack.isEmpty then
    .error "Stack underflow: need width for setlinewidth"
  else
    let (pw, st) ← popv st
    let wv ← readVal st pw
    if wv.typeOf ≠ .realT ∧ wv.typeOf ≠ .integerT then
      .error "Width must be a number"
    else do
      let w ← coerceReal wv
      withGS st fun gs => { gs with lineWidth := w }

/-- The `showpage` operator: print only, no state change. -/
def opShowpage (st : PSState) : Except String PSState := .ok st

/-- The names registered in `OperatorRegistry::OperatorRegistry()`. -/
def operatorNames : List String :=
  ["add", "sub", "mul", "div",
   "dup", "pop", "exch", "clear", "stack",
   "show",
   "eq", "ne", "lt", "le", "gt", "ge",
   "array", "get", "put", "length", "aload", "astore",
   "dict", "def", "load", "store", "known", "keys",
   "exec", "forall", "if", "ifelse", "repeat", "for",
   "moveto", "lineto", "closepath", "stroke", "fill", "newpath",
   "gsave", "grestore", "translate", "scale", "rotate",
   "setrgbcolor", "setlinewidth", "showpage"]

/-- `OperatorRegistry::hasOperator`. -/
def hasOperator (name : String) : Bool := operatorNames.contains name

/-- Dispatch to the registered operator body (`op(*this)`); `run` stands
for the interpreter's own `executeToken`, which replaying operators call.
An unregistered name is a no-op here (the `if (op)` guard), though
`executeToken` only dispatches registered names. -/
def applyOp (tm : TrigModel) (run : PSState → String → Except String PSState)
    (name : String) (st : PSState) : Except String PSState :=
  match name with
  | "add" => opAdd st
  | "sub" => opSub st
  | "mul" => opMul st
  | "div" => opDiv st
  | "dup" => opDup st
  | "pop" => opPop st
  | "exch" => opExch st
  | "clear" => opClear st
  | "stack" => opStackPrint st
  | "show" => opShow st
  | "eq" => opEq st
  | "ne" => opNe st
  | "lt" => opLt st
  | "le" => opLe st
  | "gt" => opGt st
  | "ge" => opGe st
  | "array" => opArray st
  | "get" => opGet st
  | "put" => opPut st
  | "length" => opLength st
  | "aload" => opAload st
  | "astore" => opAstore st
  | "dict" => opDict st
  | "def" => opDef st
  | "load" => opLoad st
  | "store" => opStore st
  | "known" => opKnown st
  | "keys" => opKeys st
  | "exec" => opExec run st
  | "forall" => opForall run st
  | "if" => opIf run st
  | "ifelse" => opIfelse run st
  | "repeat" => opRepeat run st
  | "for" => opFor run st
  | "moveto" => opMoveto st
  | "lineto" => opLineto st
  | "closepath" => opClosepath st
  | "stroke" => opStroke st
  | "fill" => opFill st
  | "newpath" => opNewpath st
  | "gsave" => opGsave st
  | "grestore" => opGrestore st
  | "translate" => opTranslate st
  | "scale" => opScale st
  | "rotate" => opRotate tm st
  | "setrgbcolor" => opSetrgbcolor st
  | "setlinewidth" => opSetlinewidth st
  | "showpage" => opShowpage st
  | _ => .ok st

/-- `std::isspace` for the default locale. -/
def isWhitespaceChar (c : Char) : Bool :=
  c == ' ' || c == '\t' || c == '\n' || c == '\x0b' || c == '\x0c' || c == '\r'

/-- `PSParser::isDelimiter`: whitespace, parentheses, brackets, braces. -/
def isDelimChar (c : Char) : Bool :=
  isWhitespaceChar c || c == '(' || c == ')' || c == '[' || c == ']' ||
  c == '\x7b' || c == '\x7d'

/-- The lexer's mutable locals in `PSParser::tokenize`. -/
structure LexState where
  current : String
  inString : Bool
  escapeNext : Bool
  inArray : Bool
  inDict : Bool
  inProc : Bool
  braceLevel : Nat
  bracketLevel : Nat
  dictLevel : Nat
deriving DecidableEq, Repr

/-- Initial lexer state. -/
def initLexState : LexState :=
  { current := "", inString := false, escapeNext := false,
    inArray := false, inDict := false, inProc := false,
    braceLevel := 0, bracketLevel := 0, dictLevel := 0 }

/-- The `%` comment fast-forward: skip the rest of the line, consuming the
terminating newline as well (the current token is preserved across it). -/
def dropComment (cs : List Char) : List Char :=
  (cs.dropWhile (fun c => c ≠ '\n')).drop 1

/-- Append the pending token to the output if it is nonempty. -/
def flushTok (acc : List String) (cur : String) : List String :=
  if cur = "" then acc else acc ++ [cur]

/-- The character loop of `PSParser::tokenize`, branch for branch in source
order.  The fuel argument is the remaining input length; every step consumes
at least one character, so the zero-fuel case is unreachable and mirrors the
end of input. -/
def tokenizeAux : Nat → List Char → LexState → List String → List String
  | _, [], st, acc => flushTok acc st.current
  | 0, _ :: _, st, acc => flushTok acc st.current
  | fuel + 1, c :: rest, st, acc =>
    if c == '%' && !st.inString && !st.escapeNext && !st.inArray &&
        !st.inDict && !st.inProc then
      tokenizeAux fuel (dropComment rest) st acc
    else if st.escapeNext then
      tokenizeAux fuel rest
        { st with current := st.current.push c, escapeNext := false } acc
    else if c == '\\' && st.inString then
      tokenizeAux fuel rest { st with escapeNext := true } acc
    else if c == '[' && !st.inString && !st.escapeNext && !st.inDict &&
        !st.inProc then
      let st := if !st.inArray then { st with inArray := true, bracketLevel := 1 }
                else { st with bracketLevel := st.bracketLevel + 1 }
      tokenizeAux fuel rest { st with current := st.current.push c } acc
    else if c == ']' && st.inArray && !st.inString && !st.escapeNext then
      let lvl := st.bracketLevel - 1
      let st := { st with bracketLevel := lvl, current := st.current.push c }
      tokenizeAux fuel rest
        (if lvl = 0 then { st with inArray := false } else st) acc
    else if c == '<' && rest.head? == some '<' && !st.inString &&
        !st.escapeNext && !st.inArray && !st.inProc then
      let st := if !st.inDict then { st with inDict := true, dictLevel := 1 }
                else { st with dictLevel := st.dictLevel + 1 }
      tokenizeAux fuel rest.tail
        { st with current := (st.current.push '<').push '<' } acc
    else if c == '>' && rest.head? == some '>' && st.inDict && !st.inString &&
        !st.escapeNext then
      let lvl := st.dictLevel - 1
      let st := { st with dictLevel := lvl,
                          current := (st.current.push '>').push '>' }
      tokenizeAux fuel rest.tail
        (if lvl = 0 then { st with inDict := false } else st) acc
    else if c == '\x7b' && !st.inString && !st.escapeNext && !st.inArray &&
        !st.inDict then
      let st := if !st.inProc then { st with inProc := true, braceLevel := 1 }
                else { st with braceLevel := st.braceLevel + 1 }
      tokenizeAux fuel rest { st with current := st.current.push c } acc
    else if c == '\x7d' && st.inProc && !st.inString && !st.escapeNext then
      let lvl := st.braceLevel - 1
      let st := { st with braceLevel := lvl, current := st.current.push c }
      tokenizeAux fuel rest
        (if lvl = 0 then { st with inProc := false } else st) acc
    else if c == '(' && !st.inString && !st.inArray && !st.inDict &&
        !st.inProc then
      tokenizeAux fuel rest
        { st with inString := true, current := st.current.push c } acc
    else if c == ')' && st.inString then
      tokenizeAux fuel rest
        { st with inString := false, current := st.current.push c } acc
    else if st.inString || st.inArray || st.inDict || st.inProc then
      tokenizeAux fuel rest { st with current := st.current.push c } acc
    else if isWhitespaceChar c then
      tokenizeAux fuel rest { st with current := "" } (flushTok acc st.current)
    else if isDelimChar c then
      tokenizeAux fuel rest { st with current := "" }
        (flushTok acc st.current ++ [String.singleton c])
    else
      tokenizeAux fuel rest { st with current := st.current.push c } acc

/-- `PSParser::tokenize` (and `parse`, which delegates to it). -/
def tokenize (input : String) : List String :=
  tokenizeAux input.length input.data initLexState []

/-- Accumulate a decimal digit run. -/
def digitsVal (ds : List Char) : Nat :=
  ds.foldl (fun acc c => acc * 10 + (c.toNat - 48)) 0

/-- `std::stoi` on a token: optional sign then a longest decimal-digit
prefix; no digits means failure.  (Out-of-range 32-bit overflow and
non-decimal bases are not modelled; lexer tokens carry no leading
whitespace.) -/
def parseIntTok (s : String) : Option Int :=
  let (sign, rest) :=
    match s.data with
    | '-' :: r => ((-1 : Int), r)
    | '+' :: r => ((1 : Int), r)
    | r => ((1 : Int), r)
  let ds := rest.takeWhile (·.isDigit)
  if ds.isEmpty then none else some (sign * (digitsVal ds : Int))

/-- `std::stod` on a token, restricted to simple decimal forms: optional
sign, integer digits, optional `.` plus fraction digits, at least one digit
overall; trailing characters are ignored as `strtod` does.  (Exponent, hex
and infinity/nan forms are not modelled; no claim exercises them.) -/
def parseRealTok (s : String) : Option Rat :=
  let (sign, rest) :=
    match s.data with
    | '-' :: r => ((-1 : Rat), r)
    | '+' :: r => ((1 : Rat), r)
    | r => ((1 : Rat), r)
  let intds := rest.takeWhile (·.isDigit)
  let rest2 := rest.drop intds.length
  let fracds :=
    match rest2 with
    | '.' :: r2 => r2.takeWhile (·.isDigit)
    | _ => []
  if intds.isEmpty ∧ fracds.isEmpty then none
  else some (sign * ((digitsVal intds : Rat) +
                     (digitsVal fracds : Rat) / ((10 : Rat) ^ fracds.length)))

/-- The `(...)` string-literal shape test of `executeToken`. -/
def isStringLitTok (tok : String) : Bool :=
  tok.length ≥ 2 && tok.front == '(' && tok.back == ')'

/-- The `[...]` array-literal shape test. -/
def isArrayLitTok (tok : String) : Bool :=
  tok.length ≥ 2 && tok.front == '[' && tok.back == ']'

/-- The `<<...>>` dictionary-literal shape test. -/
def isDictLitTok (tok : String) : Bool :=
  tok.length ≥ 4 && tok.take 2 == "<<" && tok.takeRight 2 == ">>"

/-- The procedure-literal shape test (braces). -/
def isProcLitTok (tok : String) : Bool :=
  tok.length ≥ 2 && tok.front == '\x7b' && tok.back == '\x7d'

/-- The name-lookup step of `executeToken`: consult the top (current)
dictionary only; produce the token list when the bound value is a
Procedure, otherwise nothing (the caller falls through). -/
def lookupProc (st : PSState) (tok : String) : Option (List String) :=
  match st.dictStack.head? with
  | none => none
  | some dp =>
      match valAt st.arena dp with
      | some (.dict entries) =>
          match dictFind entries tok with
          | some vp =>
              match valAt st.arena vp with
              | some (.procedure toks) => some toks
              | _ => none
          | none => none
      | _ => none

/-- The `PSInterpreter()` constructor: one empty dictionary on the
dictionary stack, one default graphics state, an empty operand stack.
A temporary sub-interpreter shares the process arena. -/
def freshInterp (a : Arena) : PSState :=
  { arena := a ++ [.dict []], opStack := [], dictStack := [a.length],
    graphicsStack := [initGraphicsState] }

/-- The element loop of the `[...]` branch of `executeToken`: each nonempty
element token runs in a fresh temporary interpreter; if that leaves a value
on the temporary stack it is popped into the array. -/
def evalElems (run : PSState → String → Except String PSState) :
    List String → Arena → List Ptr → Except String (Arena × List Ptr)
  | [], a, acc => .ok (a, acc)
  | etok :: rest, a, acc =>
      if etok = "" then evalElems run rest a acc
      else
        match run (freshInterp a) etok with
        | .error e => .error e
        | .ok temp =>
            match temp.opStack with
            | [] => evalElems run rest temp.arena acc
            | p :: _ => evalElems run rest temp.arena (acc ++ [p])

/-- The pair loop of the `<<...>>` branch: tokens are taken two at a time
as key/value; a trailing unpaired key is dropped; keys lose a leading `/`;
values run in a fresh temporary interpreter. -/
def evalDictPairs (run : PSState → String → Except String PSState) :
    List String → Arena → List (String × Ptr) →
    Except String (Arena × List (String × Ptr))
  | [], a, acc => .ok (a, acc)
  | [_], a, acc => .ok (a, acc)
  | k :: vtok :: rest, a, acc =>
      let key := stripSlash k
      match run (freshInterp a) vtok with
      | .error e => .error e
      | .ok temp =>
          match temp.opStack with
          | [] => evalDictPairs run rest temp.arena acc
          | p :: _ => evalDictPairs run rest temp.arena (dictInsert acc key p)

/-- The literal-classification tail of `executeToken`: string literal,
array literal, dictionary literal, procedure literal, booleans, and the
final warn-and-push-String fallback (in source order). -/
def execTokenLit (run : PSState → String → Except String PSState)
    (st : PSState) (tok : String) : Except String PSState :=
  if isStringLitTok tok then .ok (pushNew st (.string tok))
  else if isArrayLitTok tok then
    match evalElems run (tokenize ((tok.drop 1).dropRight 1)) st.arena [] with
    | .error e => .error e
    | .ok (a2, ptrs) => .ok (pushNew { st with arena := a2 } (.array ptrs))
  else if isDictLitTok tok then
    match evalDictPairs run (tokenize ((tok.drop 2).dropRight 2)) st.arena [] with
    | .error e => .error e
    | .ok (a2, entries) => .ok (pushNew { st with arena := a2 } (.dict entries))
  else if isProcLitTok tok then
    .ok (pushNew st (.procedure
          ((tokenize ((tok.drop 1).dropRight 1)).filter (· ≠ ""))))
  else if tok = "true" then .ok (pushNew st (.boolean true))
  else if tok = "false" then .ok (pushNew st (.boolean false))
  else .ok (pushNew st (.string tok))

/-- `PSInterpreter::executeToken`, classification in source order: empty
no-op; registered operator; `/`-prefixed name pushed as a String cell
holding the full token; current-dictionary lookup replaying Procedure
bindings only; real then integer parse; the literal classifications.
The fuel bounds the C++ call recursion (procedure replay and
sub-interpreters); the source recurses unboundedly. -/
def execToken (tm : TrigModel) : Nat → PSState → String → Except String PSState
  | 0, _, _ => .error "recursion fuel exhausted"
  | fuel + 1, st, tok =>
    if tok = "" then .ok st
    else if hasOperator tok then
      applyOp tm (execToken tm fuel) tok st
    else if tok.length > 1 && tok.front == '/' then
      .ok (pushNew st (.string tok))
    else
      match lookupProc st tok with
      | some toks => runTokens (execToken tm fuel) st toks
      | none =>
          if tok.data.contains '.' then
            match parseRealTok tok with
            | some q => .ok (pushNew st (.real q))
            | none => execTokenLit (execToken tm fuel) st tok
          else
            match parseIntTok tok with
            | some i => .ok (pushNew st (.integer i))
            | none => execTokenLit (execToken tm fuel) st tok

/-- The `PSInterpreter()` constructor state, with the arena holding just
the initial empty dictionary. -/
def initialState : PSState :=
  { arena := [.dict []], opStack := [], dictStack := [0],
    graphicsStack := [initGraphicsState] }

/-- `PSInterpreter::execute`: tokenize, then execute each token. -/
def execute (tm : TrigModel) (fuel : Nat) (st : PSState) (program : String) :
    Except String PSState :=
  runTokens (execToken tm fuel) st (tokenize program)

/-- A concrete trig instantiation for closed computations (the verified
claims never depend on the rotate operator's numeric output). -/
def trivialTrig : TrigModel := ⟨fun _ => 1, fun _ => 0⟩

end PSI

namespace PDFX

/-- A byte of the decompressed xref stream (`data[i]` as `uint8_t`). -/
def byteAt (d : List Nat) (i : Nat) : Nat := d.getD i 0

/-- `readBigEndian8`: zero when the offset is out of range. -/
def readBigEndian8 (d : List Nat) (off : Nat) : Nat :=
  if d.length ≤ off then 0 else byteAt d off

/-- `readBigEndian16`: zero when `offset + 1 >= data.size()`. -/
def readBigEndian16 (d : List Nat) (off : Nat) : Nat :=
  if d.length ≤ off + 1 then 0
  else byteAt d off * 256 + byteAt d (off + 1)

/-- `readBigEndian32`: zero when `offset + 3 >= data.size()`. -/
def readBigEndian32 (d : List Nat) (off : Nat) : Nat :=
  if d.length ≤ off + 3 then 0
  else byteAt d off * 16777216 + byteAt d (off + 1) * 65536 +
       byteAt d (off + 2) * 256 + byteAt d (off + 3)

/-- The inline 3-byte big-endian read of the xref loop (no bounds check in
the source; reading past the end is UB there and yields zero bytes here). -/
def readBigEndian3 (d : List Nat) (off : Nat) : Nat :=
  byteAt d off * 65536 + byteAt d (off + 1) * 256 + byteAt d (off + 2)

/-- The type-field read of the xref record loop in `PDFParser::parseFile`:
widths 1, 2 and 4 are decoded, any other width leaves the initial 0. -/
def readTypeField (d : List Nat) (off w : Nat) : Nat :=
  if w = 1 then readBigEndian8 d off
  else if w = 2 then readBigEndian16 d off
  else if w = 4 then readBigEndian32 d off
  else 0

/-- The field1/field2 read of the xref record loop: widths 1, 2, 3 and 4
are decoded, any other width leaves the initial 0. -/
def readWideField (d : List Nat) (off w : Nat) : Nat :=
  if w = 1 then readBigEndian8 d off
  else if w = 2 then readBigEndian16 d off
  else if w = 3 then readBigEndian3 d off
  else if w = 4 then readBigEndian32 d off
  else 0

/-- `std::map<int, size_t>` assignment `objectOffsets[objNum] = field1`:
replace an existing binding, otherwise append. -/
def mapInsert (m : List (Nat × Nat)) (k v : Nat) : List (Nat × Nat) :=
  match m with
  | [] => [(k, v)]
  | (k0, v0) :: rest =>
      if k0 = k then (k, v) :: rest else (k0, v0) :: mapInsert rest k v

/-- `std::map::find` projected to the mapped value. -/
def mapLookup (m : List (Nat × Nat)) (k : Nat) : Option Nat :=
  match m with
  | [] => none
  | (k0, v) :: rest => if k0 = k then some v else mapLookup rest k

/-- The inner record loop of the xref-stream branch of
`PDFParser::parseFile` for one `Index` range: for each of `count` records
read the type, field1 and field2 at the running data offset; type 0 is a
free object (skipped), type 1 adds `(objNum, field1)` to the offset map,
type 2 (compressed) and any other type are skipped.  `firstObj` advances
with the record number. -/
def decodeEntries (d : List Nat) (w0 w1 w2 : Nat) :
    Nat → Nat → Nat → List (Nat × Nat) → List (Nat × Nat)
  | _, 0, _, acc => acc
  | firstObj, count + 1, off, acc =>
      let t := readTypeField d off w0
      let f1 := readWideField d (off + w0) w1
      let _f2 := readWideField d (off + w0 + w1) w2
      let acc := if t = 1 then mapInsert acc firstObj f1 else acc
      decodeEntries d w0 w1 w2 (firstObj + 1) count (off + w0 + w1 + w2) acc

/-- The outer loop over the `Index` ranges, threading the data offset. -/
def decodeRanges (d : List Nat) (w0 w1 w2 : Nat) :
    List (Nat × Nat) → Nat → List (Nat × Nat) → List (Nat × Nat)
  | [], _, acc => acc
  | (firstObj, count) :: rest, off, acc =>
      decodeRanges d w0 w1 w2 rest (off + count * (w0 + w1 + w2))
        (decodeEntries d w0 w1 w2 firstObj count off acc)

/-- The complete object-offset map extracted from a decompressed xref
stream with field widths `[w0 w1 w2]` and the given `Index` ranges. -/
def xrefOffsets (d : List Nat) (w0 w1 w2 : Nat)
    (index : List (Nat × Nat)) : List (Nat × Nat) :=
  decodeRanges d w0 w1 w2 index 0 []

end PDFX

namespace PSI

/-! ## Statement-side vocabulary

Definitions below phrase the claims' expected behaviour; they are compared
against the source-derived operations by the theorems and are not used by
the embedding itself. -/

/-- The value at the top of the operand stack of a successful run. -/
def topVal (r : Except String PSState) : Option PSVal :=
  match r with
  | .ok st => st.opStack.head?.bind (valAt st.arena)
  | .error _ => none

/-- Truthiness as the code implements it (the amended form of claim C3's
table): Boolean is itself, Integer is nonzero, Real is nonzero, and every
other tag is falsy. -/
def truthiness (v : PSVal) : Bool :=
  match v with
  | .boolean bb => bb
  | .integer i => i != 0
  | .real r => r != 0
  | _ => false

/-- The numeric content of an Integer or Real operand (statement side). -/
def numVal : PSVal → Rat
  | .integer i => (i : Rat)
  | .real r => r
  | _ => 0

/-- Numeric-operand test (statement side). -/
def isNumeric (v : PSVal) : Bool :=
  v.typeOf == .integerT || v.typeOf == .realT

/-- The claimed promotion rule (statement side): both Integers give an
Integer through `f`, any Real operand gives a Real through `g` with the
Integer operand coerced. -/
def promoteBin (f : Int → Int → Int) (g : Rat → Rat → Rat)
    (a b : PSVal) : PSVal :=
  match a, b with
  | .integer i, .integer j => .integer (f i j)
  | _, _ => .real (g (numVal a) (numVal b))

/-! ## List helper lemmas -/

theorem list_get?_set_self {α : Type} :
    ∀ (l : List α) (i : Nat) (v : α), i < l.length →
      (l.set i v).get? i = some v := by
  intro l
  induction l with
  | nil => intro i v h; simp at h
  | cons x xs ih =>
      intro i v h
      cases i with
      | zero => rfl
      | succ j => simpa using ih j v (by simpa using h)

theorem list_get?_set_ne {α : Type} :
    ∀ (l : List α) (i j : Nat) (v : α), i ≠ j →
      (l.set i v).get? j = l.get? j := by
  intro l
  induction l with
  | nil => intro i j v _; simp
  | cons x xs ih =>
      intro i j v hne
      cases i with
      | zero =>
          cases j with
          | zero => exact absurd rfl hne
          | succ j2 => rfl
      | succ i2 =>
          cases j with
          | zero => rfl
          | succ j2 => simpa using ih i2 j2 v (fun h => hne (by rw [h]))

theorem list_set_of_get? {α : Type} :
    ∀ (l : List α) (i : Nat) (v : α), l.get? i = some v → l.set i v = l := by
  intro l
  induction l with
  | nil => intro i v h; cases i <;> simp at h
  | cons x xs ih =>
      intro i v h
      cases i with
      | zero => simp at h; simp [h]
      | succ j =>
          simp only [List.get?] at h
          simp only [List.set, List.cons.injEq, true_and]
          exact ih j v h

theorem list_set_set {α : Type} :
    ∀ (l : List α) (i : Nat) (a b : α), (l.set i a).set i b = l.set i b := by
  intro l
  induction l with
  | nil => intro i a b; rfl
  | cons x xs ih =>
      intro i a b
      cases i with
      | zero => rfl
      | succ j =>
          simp only [List.set, List.cons.injEq, true_and]
          exact ih j a b

theorem list_drop_set {α : Type} :
    ∀ (l : List α) (i : Nat) (v : α), i < l.length →
      (l.set i v).drop i = v :: l.drop (i + 1) := by
  intro l
  induction l with
  | nil => intro i v h; simp at h
  | cons x xs ih =>
      intro i v h
      cases i with
      | zero => rfl
      | succ j => simpa using ih j v (by simpa using h)

/-! ## Claim C8 -/

/-- C8: for every interpreter state with a (reachable, hence nonempty)
graphics stack, `gsave` immediately followed by `grestore` returns the
whole state unchanged — current graphics state bit-identical and the
graphics-stack depth preserved — because `gsave` pushes a value copy of the
current state (including the full path) and `grestore` drops it. -/
theorem C8_gsave_grestore_roundtrip (st : PSState) (g : GraphicsState)
    (gs : List GraphicsState) (h : st.graphicsStack = g :: gs) :
    (opGsave st >>= opGrestore) = .ok st := by
  obtain ⟨ar, os, ds, gst⟩ := st
  simp only [PSState.graphicsStack] at h
  subst h
  simp [opGsave, opGrestore, Bind.bind, Except.bind, List.length]

/-- Witness for C8 at the freshly constructed interpreter state. -/
theorem C8_gsave_grestore_roundtrip_witness :
    initialState.graphicsStack = initGraphicsState :: [] ∧
    (opGsave initialState >>= opGrestore) = .ok initialState :=
  ⟨rfl, C8_gsave_grestore_roundtrip initialState initGraphicsState [] rfl⟩

/-! ## Claim C10 -/

/-- A state whose current dictionary binds the operator name `add` to a
user procedure, attempting to shadow the built-in. -/
def shadowAddState : PSState :=
  { arena := [.dict [("add", 1)], .procedure ["999"]], opStack := [],
    dictStack := [0], graphicsStack := [initGraphicsState] }

/-- C10: `executeToken` checks the operator registry before any dictionary
lookup, so a token naming a registered operator always invokes the built-in
body, whatever the dictionary stack holds; concretely, with `add` bound to
the procedure `&#123;999&#125;` in the current dictionary, `1 2 add` still computes
the Integer 3. -/
theorem C10_operator_dispatch_precedence :
    (∀ (tm : TrigModel) (fuel : Nat) (st : PSState) (tok : String),
      hasOperator tok = true →
      execToken tm (fuel + 1) st tok = applyOp tm (execToken tm fuel) tok st) ∧
    topVal (runTokens (execToken trivialTrig 3) shadowAddState
      ["1", "2", "add"]) = some (.integer 3) := by
  constructor
  · intro tm fuel st tok h
    have hne : ¬(tok = "") := by
      intro he
      subst he
      simp [hasOperator, operatorNames] at h
    simp [execToken, hne, h]
  · decide

/-- Witness for C10 instantiating the dispatch equation at `add`. -/
theorem C10_operator_dispatch_precedence_witness :
    hasOperator "add" = true ∧
    execToken trivialTrig 1 initialState "add" =
      applyOp trivialTrig (execToken trivialTrig 0) "add" initialState :=
  ⟨by decide,
   C10_operator_dispatch_precedence.1 trivialTrig 0 initialState "add" (by decide)⟩

/-! ## Claim C3 -/

/-- A state holding a String condition under a procedure, for `if`. -/
def c3St : PSState :=
  { arena := [.string "(x)", .procedure ["1"]], opStack := [1, 0],
    dictStack := [], graphicsStack := [] }

/-- C3 counterexample: with the String condition `(x)` — whose truthiness
the claim declares true ("a condition of any other type is true") — the
source's `if` does not replay the procedure: the run leaves the operand
stack empty instead of executing `&#123;1&#125;`. -/
theorem C3_counterexample :
    opIf (execToken trivialTrig 5) c3St = .ok { c3St with opStack := [] } ∧
    opIf (execToken trivialTrig 5) c3St ≠
      runTokens (execToken trivialTrig 5) { c3St with opStack := [] } ["1"] := by
  constructor
  · rfl
  · decide

/-- C3 amended: `if` pops (proc, cond) and replays the procedure's tokens
exactly when the condition's truthiness is true, where Boolean is itself,
Integer is ≠ 0, Real is ≠ 0.0, and a condition of any *other* type is
false (the parenthesised default of the source, not true as claimed). -/
theorem C3_if_truthiness (run : PSState → String → Except String PSState)
    (st : PSState) (pc pp : Ptr) (rest : List Ptr) (cv : PSVal)
    (toks : List String)
    (hs : st.opStack = pp :: pc :: rest)
    (hp : valAt st.arena pp = some (.procedure toks))
    (hc : valAt st.arena pc = some cv) :
    opIf run st =
      if truthiness cv then runTokens run { st with opStack := rest } toks
      else .ok { st with opStack := rest } := by
  obtain ⟨ar, os, ds, gst⟩ := st
  simp only [PSState.opStack] at hs
  subst hs
  simp only [PSState.arena] at hp hc
  cases cv <;>
    simp_all [opIf, popv, stackPop, readVal, truthiness, Bind.bind, Except.bind]

/-! ## Claim C1 -/

/-- C1 counterexample: after `/k 42 def`, the bare token `k` does not
leave the Integer 42 on top: the lookup branch of `executeToken` ignores
the non-Procedure binding, the token falls through every later
classification, and the warning fallback pushes the String `"k"`. -/
theorem C1_counterexample :
    topVal (runTokens (execToken trivialTrig 10) initialState
      ["/k", "42", "def", "k"]) = some (.string "k") ∧
    topVal (runTokens (execToken trivialTrig 10) initialState
      ["/k", "42", "def", "k"]) ≠ some (.integer 42) := by
  constructor
  · decide
  · decide

/-- C1 amended: a bare token found as a key in the current (top)
dictionary replays the bound value's tokens when that value is a
Procedure; a non-Procedure binding is ignored — execution falls through to
the literal classifications, and a plain identifier that parses as no
number and matches no literal shape or boolean is pushed as the String of
the token itself (not as the bound value). -/
theorem C1_name_lookup (tm : TrigModel) (fuel : Nat) (st : PSState)
    (tok : String) (dp vp : Ptr) (entries : List (String × Ptr))
    (hop : hasOperator tok = false)
    (hne : tok ≠ "")
    (hslash : (tok.length > 1 && tok.front == '/') = false)
    (hd : st.dictStack.head? = some dp)
    (hde : valAt st.arena dp = some (.dict entries))
    (hf : dictFind entries tok = some vp) :
    (∀ toks, valAt st.arena vp = some (.procedure toks) →
      execToken tm (fuel + 1) st tok = runTokens (execToken tm fuel) st toks) ∧
    (∀ v, valAt st.arena vp = some v → v.typeOf ≠ .procedureT →
      tok.data.contains '.' = false → parseIntTok tok = none →
      isStringLitTok tok = false → isArrayLitTok tok = false →
      isDictLitTok tok = false → isProcLitTok tok = false →
      tok ≠ "true" → tok ≠ "false" →
      execToken tm (fuel + 1) st tok = .ok (pushNew st (.string tok))) := by
  constructor
  · intro toks hp
    have hl : lookupProc st tok = some toks := by
      simp [lookupProc, hd, hde, hf, hp]
    simp [execToken, hne, hop, hslash, hl]
  · intro v hv htp hdot hint hstr harr hdict hproc htrue hfalse
    have hl : lookupProc st tok = none := by
      simp only [lookupProc, hd, hde, hf, hv]
      cases v <;> simp_all [PSVal.typeOf]
    simp [execToken, hne, hop, hslash, hl, hdot, hint, execTokenLit,
          hstr, harr, hdict, hproc, htrue, hfalse]
    intro hmem
    exact absurd hmem (by simpa using hdot)

/-- A state whose current dictionary binds `k` to a Procedure. -/
def c1ProcSt : PSState :=
  { arena := [.dict [("k", 1)], .procedure ["7"]], opStack := [],
    dictStack := [0], graphicsStack := [initGraphicsState] }

/-- A state whose current dictionary binds `k` to the Integer 42. -/
def c1IntSt : PSState :=
  { arena := [.dict [("k", 1)], .integer 42], opStack := [],
    dictStack := [0], graphicsStack := [initGraphicsState] }

/-- Witness for the amended C1, at a Procedure binding and at an Integer
binding of the same key. -/
theorem C1_name_lookup_witness :
    (execToken trivialTrig 4 c1ProcSt "k" =
      runTokens (execToken trivialTrig 3) c1ProcSt ["7"]) ∧
    (execToken trivialTrig 4 c1IntSt "k" =
      .ok (pushNew c1IntSt (.string "k"))) :=
  ⟨(C1_name_lookup trivialTrig 3 c1ProcSt "k" 0 1 [("k", 1)]
      (by decide) (by decide) (by decide) rfl rfl rfl).1 ["7"] rfl,
   (C1_name_lookup trivialTrig 3 c1IntSt "k" 0 1 [("k", 1)]
      (by decide) (by decide) (by decide) rfl rfl rfl).2 (.integer 42) rfl
      (by decide) (by decide) (by decide) (by decide) (by decide) (by decide)
      (by decide) (by decide) (by decide)⟩

/-! ## Claim C2 -/

/-- Initial state for the C2 counterexample: an Array of one element
(the Integer 1 at cell 0) on top of the stack. -/
def c2St : PSState :=
  { arena := [.integer 1, .array [0]], opStack := [1],
    dictStack := [], graphicsStack := [] }

/-- C2 counterexample: `dup exch` leaves two *distinct* array objects
(handles 1 and 2; `PSStack::dup` copies the `PSObject`), and
`0 99 put` through one of them is not observable through the other:
after the run, the twin handle 2 still holds the original element list
`[0]`, whose element reads Integer 1, not the stored 99. -/
theorem C2_counterexample :
    runTokens (execToken trivialTrig 5) c2St
      ["dup", "exch", "0", "99", "put"] =
      .ok { arena := [.integer 1, .array [4], .array [0],
                      .integer 0, .integer 99],
            opStack := [1, 2], dictStack := [], graphicsStack := [] } ∧
    valAt [PSVal.integer 1, .array [4], .array [0],
           .integer 0, .integer 99] 2 = some (.array [0]) ∧
    valAt [PSVal.integer 1, .array [4], .array [0],
           .integer 0, .integer 99] 0 = some (.integer 1) ∧
    (PSVal.integer 1) ≠ (PSVal.integer 99) := by
  refine ⟨by decide, by decide, by decide, by decide⟩

/-- C2 amended: `dup` allocates a fresh cell holding a copy of the top
object's value, so after `dup` the top two entries are equal in value but
are distinct objects; for an Array, the element handles are shared but the
element sequence is not, and a `put` through the fresh handle is not
observable through the original handle (which keeps its element list). -/
theorem C2_dup_copies_value (st : PSState) (p : Ptr) (rest : List Ptr)
    (v : PSVal)
    (hs : st.opStack = p :: rest) (hv : valAt st.arena p = some v) :
    opDup st = .ok { st with
              arena := st.arena ++ [v]
              opStack := st.arena.length :: p :: rest } ∧
    st.arena.length ≠ p ∧
    (∀ elems i pi pval, v = .array elems →
      valAt (st.arena ++ [v]) pi = some (.integer i) →
      ¬(i < 0 ∨ elems.length ≤ i.toNat) →
      opPut { arena := st.arena ++ [v],
              opStack := pval :: pi :: st.arena.length :: p :: rest,
              dictStack := st.dictStack,
              graphicsStack := st.graphicsStack } =
        .ok { arena := (st.arena ++ [v]).set st.arena.length
                (.array (elems.set i.toNat pval)),
              opStack := st.arena.length :: p :: rest,
              dictStack := st.dictStack,
              graphicsStack := st.graphicsStack } ∧
      valAt ((st.arena ++ [v]).set st.arena.length
              (.array (elems.set i.toNat pval))) p = some (.array elems) ∧
      valAt ((st.arena ++ [v]).set st.arena.length
              (.array (elems.set i.toNat pval))) st.arena.length =
        some (.array (elems.set i.toNat pval))) := by
  have hp : p < st.arena.length := by
    rcases Nat.lt_or_ge p st.arena.length with h | h
    · exact h
    · exfalso
      rw [valAt, List.get?_eq_none.2 h] at hv
      cases hv
  refine ⟨?_, Nat.ne_of_gt hp, ?_⟩
  · obtain ⟨ar, os, ds, gst⟩ := st
    simp only [PSState.opStack] at hs
    subst hs
    simp only [PSState.arena] at hv
    simp [opDup, hv]
  · intro elems i pi pval hvv hpi hbounds
    subst hvv
    have hconcat : valAt (st.arena ++ [.array elems]) st.arena.length =
        some (.array elems) := by
      simp [valAt, List.get?_concat_length]
    refine ⟨?_, ?_, ?_⟩
    · simp [opPut, popv, stackPop, readVal, hconcat, hpi, hbounds,
            Bind.bind, Except.bind, pushPtr, setAt]
    · have h1 : ((st.arena ++ [PSVal.array elems]).set st.arena.length
          (.array (elems.set i.toNat pval))).get? p =
          (st.arena ++ [PSVal.array elems]).get? p :=
        list_get?_set_ne _ _ _ _ (Nat.ne_of_gt hp)
      have h2 : (st.arena ++ [PSVal.array elems]).get? p = st.arena.get? p :=
        List.get?_append hp
      rw [valAt, h1, h2]
      rw [valAt] at hv
      exact hv
    · have : ((st.arena ++ [PSVal.array elems]).set st.arena.length
          (.array (elems.set i.toNat pval))).get? st.arena.length =
          some (.array (elems.set i.toNat pval)) :=
        list_get?_set_self _ _ _ (by simp)
      rw [valAt, this]

/-- Witness for the amended C2 at a one-element array. -/
theorem C2_dup_copies_value_witness :
    opDup { arena := [.integer 0, .array [0]], opStack := [1],
            dictStack := [], graphicsStack := [] } =
      .ok { arena := [.integer 0, .array [0], .array [0]],
            opStack := [2, 1], dictStack := [], graphicsStack := [] } ∧
    (2 : Nat) ≠ 1 ∧
    (opPut { arena := [.integer 0, .array [0], .array [0]],
             opStack := (0 : Nat) :: (0 : Nat) :: 2 :: 1 :: [],
             dictStack := [], graphicsStack := [] } =
       .ok { arena := [PSVal.integer 0, .array [0], .array [0]].set 2
               (.array ([0].set (0 : Int).toNat 0)),
             opStack := 2 :: 1 :: [],
             dictStack := [], graphicsStack := [] } ∧
     valAt ([PSVal.integer 0, .array [0], .array [0]].set 2
             (.array ([0].set (0 : Int).toNat 0))) 1 = some (.array [0]) ∧
     valAt ([PSVal.integer 0, .array [0], .array [0]].set 2
             (.array ([0].set (0 : Int).toNat 0))) 2 =
       some (.array ([0].set (0 : Int).toNat 0))) := by
  have h := C2_dup_copies_value
    { arena := [.integer 0, .array [0]], opStack := [1],
      dictStack := [], graphicsStack := [] } 1 [] (.array [0]) rfl rfl
  exact ⟨h.1, h.2.1, h.2.2 [0] 0 0 0 rfl (by decide) (by decide)⟩

/-! ## Claims C4 and C5: the astore loop -/

/-- Behaviour of the `astore` pop-and-store loop: with the next
`vals.length` stack entries being `vals` (top first), the loop pops them
all, the array cell ends holding `vals.reverse` before its untouched tail,
and the stack is left at `rest`. -/
theorem astoreLoop_spec :
    ∀ (vals : List Ptr) (st : PSState) (ap : Ptr) (elems rest : List Ptr),
      st.opStack = vals ++ rest →
      valAt st.arena ap = some (.array elems) →
      vals.length ≤ elems.length →
      astoreLoop vals.length st ap =
        .ok { st with
              arena := setAt st.arena ap
                (.array (vals.reverse ++ elems.drop vals.length))
              opStack := rest } := by
  intro vals
  induction vals with
  | nil =>
      intro st ap elems rest hs hv _
      have harena : setAt st.arena ap (.array elems) = st.arena :=
        list_set_of_get? _ _ _ hv
      obtain ⟨ar, os, ds, gst⟩ := st
      simp only [PSState.opStack] at hs
      simp only [PSState.arena] at harena
      subst hs
      simp [astoreLoop, harena]
  | cons v0 vs ih =>
      intro st ap elems rest hs hv hlen
      have hap : ap < st.arena.length := by
        rcases Nat.lt_or_ge ap st.arena.length with h | h
        · exact h
        · exfalso
          rw [valAt, List.get?_eq_none.2 h] at hv
          cases hv
      have hvslt : vs.length < elems.length := by
        simpa using hlen
      have step :
          astoreLoop (vs.length + 1) st ap =
            astoreLoop vs.length
              { st with
                arena := setAt st.arena ap (.array (elems.set vs.length v0))
                opStack := vs ++ rest } ap := by
        simp [astoreLoop, popv, stackPop, hs, readVal, hv,
              Nat.not_le.2 hvslt, Bind.bind, Except.bind]
      have hv2 : valAt (setAt st.arena ap (.array (elems.set vs.length v0))) ap =
          some (.array (elems.set vs.length v0)) := by
        rw [valAt, setAt]
        exact list_get?_set_self _ _ _ hap
      have ihres := ih
        { st with
          arena := setAt st.arena ap (.array (elems.set vs.length v0))
          opStack := vs ++ rest } ap (elems.set vs.length v0) rest rfl hv2
        (by simpa using Nat.le_of_lt hvslt)
      have hdrop : (elems.set vs.length v0).drop vs.length =
          v0 :: elems.drop (vs.length + 1) :=
        list_drop_set _ _ _ hvslt
      have hsetset :
          setAt (setAt st.arena ap (.array (elems.set vs.length v0))) ap
              (.array (vs.reverse ++ (elems.set vs.length v0).drop vs.length)) =
            setAt st.arena ap
              (.array ((v0 :: vs).reverse ++ elems.drop (vs.length + 1))) := by
        rw [setAt, setAt, setAt, list_set_set, hdrop]
        simp
      show astoreLoop (vs.length + 1) st ap = _
      rw [step, ihres]
      obtain ⟨ar, os, ds, gst⟩ := st
      simp only at hsetset ⊢
      rw [hsetset]
      simp

/-- Pushing a handle list one by one reverses it onto the stack. -/
theorem foldl_pushPtr (elems : List Ptr) :
    ∀ st : PSState, elems.foldl (fun s e => pushPtr s e) st =
      { st with opStack := elems.reverse ++ st.opStack } := by
  induction elems with
  | nil => intro st; rfl
  | cons e es ih =>
      intro st
      rw [List.foldl_cons, ih (pushPtr st e)]
      simp [pushPtr]

/-! ## Claim C4 -/

/-- Initial state for the C4 counterexample: a length-2 array on top,
with Integer 20 beneath it and Integer 10 deepest. -/
def c4St : PSState :=
  { arena := [.integer 10, .integer 20, .array [0, 0]], opStack := [2, 1, 0],
    dictStack := [], graphicsStack := [] }

/-- C4 counterexample: `astore` on a 2-element array over the stack
(top→bottom) `20, 10` stores the FIRST-popped (top) value 20 at index
n−1 = 1 and the deepest popped value 10 at index 0 — the claim instead
puts the deepest popped value at index n−1. -/
theorem C4_counterexample :
    opAstore c4St =
      .ok { arena := [.integer 10, .integer 20, .array [0, 1]],
            opStack := [2], dictStack := [], graphicsStack := [] } ∧
    valAt [PSVal.integer 10, .integer 20, .array [0, 1]] 1 =
      some (.integer 20) ∧
    valAt [PSVal.integer 10, .integer 20, .array [0, 1]] 0 =
      some (.integer 10) ∧
    (PSVal.integer 20) ≠ (PSVal.integer 10) := by
  refine ⟨by decide, by decide, by decide, by decide⟩

/-- C4 amended: for an Array of length n on top of the stack, `astore`
pops the array, pops the top n values and stores them so that the
first-popped (topmost) value ends at index n−1 and the deepest popped
value at index 0 (the popped run reversed, i.e. stack order maps to
increasing indices); with fewer than n values below the array it raises
the stack-underflow error. -/
theorem C4_astore_order (st : PSState) (ap : Ptr) (elems rest : List Ptr)
    (hs : st.opStack = ap :: rest)
    (hv : valAt st.arena ap = some (.array elems)) :
    (rest.length < elems.length →
      opAstore st = .error "Stack underflow: not enough elements for astore") ∧
    (∀ vals rest2, rest = vals ++ rest2 → vals.length = elems.length →
      opAstore st = .ok { st with
        arena := setAt st.arena ap (.array vals.reverse)
        opStack := ap :: rest2 }) := by
  constructor
  · intro hlt
    simp [opAstore, hs, popv, stackPop, readVal, hv, hlt,
          Bind.bind, Except.bind]
  · intro vals rest2 hrest hlen
    subst hrest
    have hnlt : ¬((vals ++ rest2).length < elems.length) := by
      simp [List.length_append]
      omega
    have hloop := astoreLoop_spec vals { st with opStack := vals ++ rest2 }
      ap elems rest2 rfl hv (Nat.le_of_eq hlen)
    rw [hlen] at hloop
    have hdrop : elems.drop elems.length = [] := by simp
    simp [opAstore, hs, popv, stackPop, readVal, hv, hnlt,
          Bind.bind, Except.bind, hloop, pushPtr, hdrop]
    omega

/-- Witness for the amended C4: the success case on `c4St` and the
underflow case on a bare 2-array. -/
theorem C4_astore_order_witness :
    (opAstore { arena := [.integer 10, .integer 20, .array [0, 0]],
                opStack := [2, 1, 0], dictStack := [], graphicsStack := [] } =
      .ok { arena := setAt [PSVal.integer 10, .integer 20, .array [0, 0]] 2
              (.array ([1, 0].reverse))
            opStack := [2], dictStack := [], graphicsStack := [] }) ∧
    (opAstore { arena := [PSVal.array [0, 0]], opStack := [0],
                dictStack := [], graphicsStack := [] } =
      .error "Stack underflow: not enough elements for astore") := by
  constructor
  · exact (C4_astore_order c4St 2 [0, 0] [1, 0] rfl rfl).2 [1, 0] [] rfl rfl
  · exact (C4_astore_order
      { arena := [PSVal.array [0, 0]], opStack := [0],
        dictStack := [], graphicsStack := [] } 0 [0, 0] [] rfl rfl).1
      (by decide)

/-! ## Claim C5 -/

/-- C5: `aload` followed by `astore` is the identity on the whole
interpreter state: the pushed element handles are popped back into the
same indices, the array cell is rewritten with its own contents, and only
the array handle remains on top of the original stack. -/
theorem C5_aload_astore_roundtrip (st : PSState) (ap : Ptr)
    (elems rest : List Ptr)
    (hs : st.opStack = ap :: rest)
    (hv : valAt st.arena ap = some (.array elems)) :
    (opAload st >>= opAstore) = .ok st := by
  have haload : opAload st =
      .ok { st with opStack := ap :: (elems.reverse ++ rest) } := by
    simp only [opAload, hs, popv, stackPop, readVal, hv, Bind.bind,
               Except.bind, List.isEmpty_cons, Bool.false_eq_true,
               if_false, ite_false]
    rw [foldl_pushPtr]
    simp [pushPtr]
  have hnlt : ¬((elems.reverse ++ rest).length < elems.length) := by
    simp [List.length_append]
  have hloop := astoreLoop_spec elems.reverse
    { st with opStack := elems.reverse ++ rest } ap elems rest rfl hv
    (by simp)
  rw [List.length_reverse] at hloop
  have harena :
      setAt st.arena ap (.array (elems.reverse.reverse ++
        elems.drop elems.length)) = st.arena := by
    simp only [List.reverse_reverse, List.drop_length, List.append_nil]
    exact list_set_of_get? _ _ _ hv
  rw [harena] at hloop
  have hfinal : opAstore { st with opStack := ap :: (elems.reverse ++ rest) } =
      .ok st := by
    simp [opAstore, popv, stackPop, readVal, hv, hnlt,
          Bind.bind, Except.bind, hloop, pushPtr]
    obtain ⟨ar, os, ds, gst⟩ := st
    simp only [PSState.opStack] at hs
    subst hs
    rfl
  calc opAload st >>= opAstore
      = opAstore { st with opStack := ap :: (elems.reverse ++ rest) } := by
        rw [haload]
        rfl
    _ = .ok st := hfinal

/-- Witness for C5 at a two-element array over a nonempty remainder. -/
theorem C5_aload_astore_roundtrip_witness :
    (opAload { arena := [.integer 7, .integer 8, .array [0, 1], .boolean true]
               opStack := [2, 3], dictStack := [], graphicsStack := [] } >>=
      opAstore) =
      .ok { arena := [.integer 7, .integer 8, .array [0, 1], .boolean true]
            opStack := [2, 3], dictStack := [], graphicsStack := [] } :=
  C5_aload_astore_roundtrip _ 2 [0, 1] [3] rfl rfl

/-! ## Claim C6 -/

/-- C6: arithmetic promotion for `add`, `sub`, `mul`, `div` on numeric
operands: two Integers give an Integer, any Real operand gives a Real with
the Integer operand coerced; `div` on two Integers is truncating integer
division (`Int.tdiv`, C++ `/` on `int`), and every other numeric case is
real division (with nonzero divisor, since `div` checks zero first). -/
theorem C6_arith_promotion (st : PSState) (pa pb : Ptr) (rest : List Ptr)
    (va vb : PSVal)
    (hs : st.opStack = pb :: pa :: rest)
    (ha : valAt st.arena pa = some va)
    (hb : valAt st.arena pb = some vb)
    (hna : isNumeric va = true) (hnb : isNumeric vb = true) :
    opAdd st = .ok (pushNew { st with opStack := rest }
      (promoteBin (· + ·) (· + ·) va vb)) ∧
    opSub st = .ok (pushNew { st with opStack := rest }
      (promoteBin (· - ·) (· - ·) va vb)) ∧
    opMul st = .ok (pushNew { st with opStack := rest }
      (promoteBin (· * ·) (· * ·) va vb)) ∧
    (¬(vb = .integer 0 ∨ vb = .real 0) →
      opDiv st = .ok (pushNew { st with opStack := rest }
        (promoteBin Int.tdiv (· / ·) va vb))) := by
  refine ⟨?_, ?_, ?_, ?_⟩
  · cases va <;> cases vb <;>
      simp_all [opAdd, promoteBin, numVal, coerceReal, isNumeric,
                PSVal.typeOf, popv, stackPop, readVal, Bind.bind, Except.bind]
  · cases va <;> cases vb <;>
      simp_all [opSub, promoteBin, numVal, coerceReal, isNumeric,
                PSVal.typeOf, popv, stackPop, readVal, Bind.bind, Except.bind]
  · cases va <;> cases vb <;>
      simp_all [opMul, promoteBin, numVal, coerceReal, isNumeric,
                PSVal.typeOf, popv, stackPop, readVal, Bind.bind, Except.bind]
  · intro hz
    cases va <;> cases vb <;>
      simp_all [opDiv, promoteBin, numVal, coerceReal, isNumeric,
                PSVal.typeOf, popv, stackPop, readVal, Bind.bind, Except.bind]

/-- Operand state for the C6 witness: Integer 7 under Integer 2. -/
def c6wSt : PSState :=
  { arena := [.integer 7, .integer 2], opStack := [1, 0],
    dictStack := [], graphicsStack := [] }

/-- Witness for C6 at the Integer pair (7, 2); in particular
`7 2 div` yields `Int.tdiv 7 2 = 3`. -/
theorem C6_arith_promotion_witness :
    opAdd c6wSt = .ok (pushNew { c6wSt with opStack := [] }
      (promoteBin (· + ·) (· + ·) (.integer 7) (.integer 2))) ∧
    opSub c6wSt = .ok (pushNew { c6wSt with opStack := [] }
      (promoteBin (· - ·) (· - ·) (.integer 7) (.integer 2))) ∧
    opMul c6wSt = .ok (pushNew { c6wSt with opStack := [] }
      (promoteBin (· * ·) (· * ·) (.integer 7) (.integer 2))) ∧
    opDiv c6wSt = .ok (pushNew { c6wSt with opStack := [] }
      (promoteBin Int.tdiv (· / ·) (.integer 7) (.integer 2))) := by
  have h := C6_arith_promotion c6wSt 0 1 [] (.integer 7) (.integer 2)
    rfl rfl rfl (by decide) (by decide)
  exact ⟨h.1, h.2.1, h.2.2.1, h.2.2.2 (by decide)⟩

/-! ## Claim C7 -/

/-- C7: for any two operands, `eq` pushes a Boolean that is `false`
whenever the two type tags differ (including Integer 1 versus Real 1.0),
and `ne` pushes exactly the negation of that Boolean. -/
theorem C7_eq_false_on_tag_mismatch (st : PSState) (pa pb : Ptr)
    (rest : List Ptr) (va vb : PSVal)
    (hs : st.opStack = pb :: pa :: rest)
    (ha : valAt st.arena pa = some va)
    (hb : valAt st.arena pb = some vb) :
    ∃ r : Bool,
      opEq st = .ok { st with
          arena := st.arena ++ [.boolean r]
          opStack := st.arena.length :: rest } ∧
      (va.typeOf ≠ vb.typeOf → r = false) ∧
      opNe st = .ok { st with
          arena := st.arena ++ [.boolean r, .boolean (!r)]
          opStack := (st.arena.length + 1) :: rest } := by
  refine ⟨eqSwitch va vb, ?_, ?_, ?_⟩
  · simp [opEq, hs, popv, stackPop, readVal, ha, hb, pushNew,
          Bind.bind, Except.bind]
  · intro h
    simp [eqSwitch, h]
  · have heq : opEq st = .ok { st with
        arena := st.arena ++ [.boolean (eqSwitch va vb)]
        opStack := st.arena.length :: rest } := by
      simp [opEq, hs, popv, stackPop, readVal, ha, hb, pushNew,
            Bind.bind, Except.bind]
    have hcell : valAt (st.arena ++ [PSVal.boolean (eqSwitch va vb)])
        st.arena.length = some (.boolean (eqSwitch va vb)) := by
      simp [valAt, List.get?_concat_length]
    simp [opNe, heq, popv, stackPop, readVal, hcell, pushNew,
          Bind.bind, Except.bind]

/-- Operand state for the C7 witness: Integer 1 under Real 1.0
(the numeric-mismatch example the spec singles out). -/
def c7wSt : PSState :=
  { arena := [.integer 1, .real 1], opStack := [1, 0],
    dictStack := [], graphicsStack := [] }

/-- Witness for C7: `1 1.0 eq` yields false and `1 1.0 ne` yields true. -/
theorem C7_eq_false_on_tag_mismatch_witness :
    opEq c7wSt = .ok { c7wSt with
        arena := c7wSt.arena ++ [.boolean false]
        opStack := c7wSt.arena.length :: [] } ∧
    opNe c7wSt = .ok { c7wSt with
        arena := c7wSt.arena ++ [.boolean false, .boolean true]
        opStack := (c7wSt.arena.length + 1) :: [] } := by
  obtain ⟨r, h1, h2, h3⟩ := C7_eq_false_on_tag_mismatch c7wSt 0 1 []
    (.integer 1) (.real 1) rfl rfl rfl
  have hr : r = false := h2 (by decide)
  subst hr
  exact ⟨h1, h3⟩

/-! ## Claim C9 -/

/-- Looking up the key just written finds the written value. -/
theorem mapLookup_mapInsert_self (m : List (Nat × Nat)) (k v : Nat) :
    PDFX.mapLookup (PDFX.mapInsert m k v) k = some v := by
  induction m with
  | nil => simp [PDFX.mapInsert, PDFX.mapLookup]
  | cons kv rest ih =>
      obtain ⟨k0, v0⟩ := kv
      by_cases h : k0 = k <;>
        simp [PDFX.mapInsert, PDFX.mapLookup, h, ih]

/-- Writing one key leaves every other key's lookup unchanged. -/
theorem mapLookup_mapInsert_ne (m : List (Nat × Nat)) (k v k2 : Nat)
    (h : k ≠ k2) :
    PDFX.mapLookup (PDFX.mapInsert m k v) k2 = PDFX.mapLookup m k2 := by
  induction m with
  | nil => simp [PDFX.mapInsert, PDFX.mapLookup, h]
  | cons kv rest ih =>
      obtain ⟨k0, v0⟩ := kv
      by_cases h0 : k0 = k
      · subst h0
        simp [PDFX.mapInsert, PDFX.mapLookup, h]
      · simp [PDFX.mapInsert, PDFX.mapLookup, h0, ih]

/-- The record loop only writes keys at or above its running `firstObj`. -/
theorem decodeEntries_lookup_below (d : List Nat) (w0 w1 w2 : Nat) :
    ∀ (count firstObj off : Nat) (acc : List (Nat × Nat)) (k : Nat),
      k < firstObj →
      PDFX.mapLookup (PDFX.decodeEntries d w0 w1 w2 firstObj count off acc) k =
        PDFX.mapLookup acc k := by
  intro count
  induction count with
  | zero => intro firstObj off acc k _; rfl
  | succ c ih =>
      intro firstObj off acc k hk
      show PDFX.mapLookup (PDFX.decodeEntries d w0 w1 w2 (firstObj + 1) c
        (off + w0 + w1 + w2) _) k = _
      rw [ih (firstObj + 1) (off + w0 + w1 + w2) _ k (by omega)]
      by_cases ht : PDFX.readTypeField d off w0 = 1
      · have hne := mapLookup_mapInsert_ne acc firstObj
          (PDFX.readWideField d (off + w0) w1) k (Nat.ne_of_gt hk)
        simp [ht, hne]
      · simp [ht]

/-- Per-record behaviour of the loop: for record `i` of the range, the
final lookup of `firstObj + i` is the record's field1 when its type field
decodes to 1, and otherwise whatever the accumulator already bound. -/
theorem decodeEntries_lookup (d : List Nat) (w0 w1 w2 : Nat) :
    ∀ (count i firstObj off : Nat) (acc : List (Nat × Nat)), i < count →
      PDFX.mapLookup (PDFX.decodeEntries d w0 w1 w2 firstObj count off acc)
        (firstObj + i) =
        if PDFX.readTypeField d (off + i * (w0 + w1 + w2)) w0 = 1
        then some (PDFX.readWideField d (off + i * (w0 + w1 + w2) + w0) w1)
        else PDFX.mapLookup acc (firstObj + i) := by
  intro count
  induction count with
  | zero => intro i firstObj off acc h; omega
  | succ c ih =>
      intro i firstObj off acc hi
      cases i with
      | zero =>
          show PDFX.mapLookup (PDFX.decodeEntries d w0 w1 w2 (firstObj + 1) c
            (off + w0 + w1 + w2) _) (firstObj + 0) = _
          rw [decodeEntries_lookup_below d w0 w1 w2 c (firstObj + 1)
            (off + w0 + w1 + w2) _ (firstObj + 0) (by omega)]
          by_cases ht : PDFX.readTypeField d off w0 = 1
          · simp [ht, mapLookup_mapInsert_self]
          · simp [ht]
      | succ j =>
          show PDFX.mapLookup (PDFX.decodeEntries d w0 w1 w2 (firstObj + 1) c
            (off + w0 + w1 + w2) _) (firstObj + (j + 1)) = _
          have harg : firstObj + (j + 1) = (firstObj + 1) + j := by omega
          have hoff : (off + w0 + w1 + w2) + j * (w0 + w1 + w2) =
              off + (j + 1) * (w0 + w1 + w2) := by ring
          rw [harg, ih j (firstObj + 1) (off + w0 + w1 + w2) _ (by omega),
              hoff]
          by_cases ht : PDFX.readTypeField d off w0 = 1
          · have hne := mapLookup_mapInsert_ne acc firstObj
              (PDFX.readWideField d (off + w0) w1) (firstObj + 1 + j)
              (by omega)
            simp [ht, hne]
          · simp [ht]

/-- The twelve decompressed bytes of the E6 scenario
(`00 00 00 00  01 00 0F 00  01 00 5C 00`). -/
def e6Bytes : List Nat := [0, 0, 0, 0, 1, 0, 15, 0, 1, 0, 92, 0]

/-- C9: for a decompressed xref stream with widths `[w0 w1 w2]` and one
`Index` range, each record whose type field decodes to 1 contributes
`(obj_num, field1)` to the object-offset map, while type-0 (free) and
type-2 (compressed) records contribute nothing; on the E6 input with
`W [1 2 1]` and bytes `00 00 00 00 01 00 0F 00 01 00 5C 00` the decoder
yields exactly `{1 ↦ 0x0F, 2 ↦ 0x5C}` with object 0 unmapped (free). -/
theorem C9_xref_stream_records :
    (∀ (d : List Nat) (w0 w1 w2 firstObj count i : Nat), i < count →
      PDFX.mapLookup (PDFX.xrefOffsets d w0 w1 w2 [(firstObj, count)])
        (firstObj + i) =
        if PDFX.readTypeField d (i * (w0 + w1 + w2)) w0 = 1
        then some (PDFX.readWideField d (i * (w0 + w1 + w2) + w0) w1)
        else none) ∧
    PDFX.xrefOffsets e6Bytes 1 2 1 [(0, 3)] = [(1, 15), (2, 92)] ∧
    PDFX.mapLookup (PDFX.xrefOffsets e6Bytes 1 2 1 [(0, 3)]) 0 = none := by
  refine ⟨?_, by decide, by decide⟩
  intro d w0 w1 w2 firstObj count i hi
  have h := decodeEntries_lookup d w0 w1 w2 count i firstObj 0 [] hi
  simpa [PDFX.xrefOffsets, PDFX.decodeRanges, PDFX.mapLookup] using h

/-- Witness for C9 instantiating the per-record equation at record 1 of
the E6 input (the in-use entry mapping object 1 to offset 0x0F). -/
theorem C9_xref_stream_records_witness :
    (1 : Nat) < 3 ∧
    PDFX.mapLookup (PDFX.xrefOffsets e6Bytes 1 2 1 [(0, 3)]) (0 + 1) =
      (if PDFX.readTypeField e6Bytes (1 * (1 + 2 + 1)) 1 = 1
       then some (PDFX.readWideField e6Bytes (1 * (1 + 2 + 1) + 1) 2)
       else none) :=
  ⟨by decide, C9_xref_stream_records.1 e6Bytes 1 2 1 0 3 1 (by decide)⟩

/-- Witness for the amended C3 at an Integer 3 condition. -/
theorem C3_if_truthiness_witness :
    opIf (execToken trivialTrig 5)
      { arena := [.integer 3, .procedure ["7"]], opStack := [1, 0],
        dictStack := [], graphicsStack := [] } =
      if truthiness (.integer 3) then
        runTokens (execToken trivialTrig 5)
          { arena := [.integer 3, .procedure ["7"]], opStack := [],
            dictStack := [], graphicsStack := [] } ["7"]
      else
        .ok { arena := [.integer 3, .procedure ["7"]], opStack := [],
              dictStack := [], graphicsStack := [] } :=
  C3_if_truthiness (execToken trivialTrig 5) _ 0 1 [] (.integer 3) ["7"]
    rfl rfl rfl

end PSI
